import Mathlib

/-!
Verification development for the oneShotTranscoder repository.

Shallow embedding of the core decision logic:
* `transcoder/compatibility.py` — Apple TV compatibility classifier
  (`check_apple_tv_compatibility`, `_parse_h264_level`).
* `transcoder/utils.py` — `calculate_target_bitrate`.
* `transcoder/language.py` — `normalize_language_tag`, `iso6392_to_iso6391`.
* `transcoder/media_patterns.py` — `build_pattern_regex` and the
  auto-detection strategy chain (`_detect_tv_metadata`, `_detect_movie_metadata`,
  `auto_detect_metadata`) with their cleaning helpers.

Python floats are modelled as rationals (ℚ); the numeric values involved
(`42/10`, `4.2`, `5.2`, `60`, the bitrate formula on integral inputs) are exact
in both representations.  Python dicts from ffprobe are modelled as structures
whose fields carry the defaults the code supplies via `.get(key, default)`.
-/

namespace Transcoder

/-! ## String helpers (models of the Python `str` methods used by the code) -/

/-- Model of `str.lower()` (inputs are ASCII). -/
def lowerStr (s : String) : String := String.mk (s.data.map Char.toLower)

/-- Model of `str.upper()` (inputs are ASCII). -/
def upperStr (s : String) : String := String.mk (s.data.map Char.toUpper)

/-- Model of `str.lstrip(c)` for a single strip character. -/
def lstripChar (c : Char) (s : String) : String :=
  String.mk (s.data.dropWhile (fun x => x = c))

/-- Model of `str.strip()` (whitespace at both ends). -/
def stripStr (s : String) : String :=
  String.mk (((s.data.dropWhile Char.isWhitespace).reverse.dropWhile
      Char.isWhitespace).reverse)

/-- Model of `str.strip(chars)` for an explicit character set. -/
def stripCharsList (allowed : List Char) (l : List Char) : List Char :=
  ((l.dropWhile (fun c => allowed.contains c)).reverse.dropWhile
      (fun c => allowed.contains c)).reverse

/-- Core of `str.title()`: uppercase a letter that follows a non-letter,
lowercase a letter that follows a letter. -/
def titleCore : Bool → List Char → List Char
  | _, [] => []
  | prevAlpha, c :: rest =>
    let c' := if c.isAlpha then (if prevAlpha then c.toLower else c.toUpper) else c
    c' :: titleCore c.isAlpha rest

/-- Model of `str.title()` (inputs are ASCII). -/
def titleStr (s : String) : String := String.mk (titleCore false s.data)

/-- Substring test on char lists, one candidate start position per step. -/
def containsSubList (sub : List Char) : List Char → Bool
  | [] => sub.isEmpty
  | c :: rest => sub.isPrefixOf (c :: rest) || containsSubList sub rest

/-- Model of Python's `sub in hay` on strings. -/
def containsSub (hay sub : String) : Bool := containsSubList sub.data hay.data

/-- Digits of a natural number, in order; helper for decimal formatting. -/
def natDigits (n : Nat) : String := toString n

/-- Model of `f"{q:.1f}"` on a float modelled as a rational: round to one
decimal place and print.  (Python rounds the underlying double; on the values
the classifier produces the two agree.) -/
def formatFixed1 (q : ℚ) : String :=
  let n : Int := round (q * 10)
  let sign := if n < 0 then "-" else ""
  let m := n.natAbs
  sign ++ natDigits (m / 10) ++ "." ++ natDigits (m % 10)

/-- Left-pad a string with zeros to the given width. -/
def padZeros (w : Nat) (s : String) : String :=
  if s.length < w then String.mk (List.replicate (w - s.length) '0') ++ s else s

/-- Model of `f"{q:.3f}"` on a float modelled as a rational. -/
def formatFixed3 (q : ℚ) : String :=
  let n : Int := round (q * 1000)
  let sign := if n < 0 then "-" else ""
  let m := n.natAbs
  sign ++ natDigits (m / 1000) ++ "." ++ padZeros 3 (natDigits (m % 1000))

/-! ## Compatibility classifier data model (`transcoder/compatibility.py`) -/

/-- `CompatibilityStatus` enum. -/
inductive CompatibilityStatus where
  | compatible
  | needs_remux
  | needs_transcode
deriving DecidableEq, Repr

/-- Numeric rank of a status in the escalation order
COMPATIBLE < NEEDS_REMUX < NEEDS_TRANSCODE. -/
def CompatibilityStatus.rank : CompatibilityStatus → Nat
  | .compatible => 0
  | .needs_remux => 1
  | .needs_transcode => 2

/-- The escalation order on statuses. -/
def statusLe (a b : CompatibilityStatus) : Prop := a.rank ≤ b.rank

instance (a b : CompatibilityStatus) : Decidable (statusLe a b) := by
  unfold statusLe; infer_instance

/-- `CompatibilityCheck` dataclass. -/
structure CompatibilityCheck where
  name : String
  compatible : Bool
  current_value : String
  required_value : Option String
  action_needed : Option String
deriving DecidableEq, Repr

/-- `AppleTVCompatibility` dataclass. -/
structure AppleTVCompatibility where
  overall_status : CompatibilityStatus
  checks : List CompatibilityCheck
  video_action : String
  audio_action : String
  container_action : String
  estimated_time : String
deriving DecidableEq, Repr

/-- The freshly-constructed result:
`AppleTVCompatibility(overall_status=CompatibilityStatus.COMPATIBLE)` with the
dataclass field defaults. -/
def initCompat : AppleTVCompatibility :=
  { overall_status := .compatible
    checks := []
    video_action := "copy"
    audio_action := "copy"
    container_action := "none"
    estimated_time := "unknown" }

/-- `AppleTVCompatibility.add_check` (append to the checks list). -/
def addCheck (r : AppleTVCompatibility) (c : CompatibilityCheck) :
    AppleTVCompatibility :=
  { r with checks := r.checks ++ [c] }

/-- The raw `level` value of a video stream as ffprobe delivers it: absent
(`None`), a numeric value (int, float, or numeric string — all of which
`_parse_h264_level` treats identically), or a non-numeric string whose
`float()` conversion raises. -/
inductive RawLevel where
  | absent
  | num (q : ℚ)
  | unparseable
deriving DecidableEq, Repr

/-- The raw `r_frame_rate` string: a rational `"num/den"`, a plain float
string, or a string whose parse raises (caught, yielding fps 0).  An absent
field defaults to `"0/1"`, i.e. `frac 0 1`. -/
inductive RawFps where
  | frac (num den : ℚ)
  | plain (q : ℚ)
  | bad
deriving DecidableEq, Repr

/-- One ffprobe stream dict, restricted to the keys the classifier reads,
with the defaults the `.get(key, default)` calls supply. -/
structure MediaStream where
  codec_type : String
  codec_name : String
  profile : String
  level : RawLevel
  width : Int
  height : Int
  r_frame_rate : RawFps
  pix_fmt : String
  channels : Int
  channel_layout : String
deriving DecidableEq, Repr

/-- The ffprobe result dict, restricted to its `streams` list. -/
structure ProbeData where
  streams : List MediaStream
deriving DecidableEq, Repr

/-- The input `Path`, restricted to the `.suffix` attribute the classifier
reads. -/
structure MediaPath where
  suffix : String
deriving DecidableEq, Repr

/-- Constants from `compatibility.py`. -/
def APPLE_TV_SUPPORTED_VIDEO_CODECS : List String :=
  ["h264", "avc1", "hevc", "h265", "hvc1", "hev1"]

def APPLE_TV_SUPPORTED_AUDIO_CODECS : List String :=
  ["aac", "ac3", "eac3", "ec-3", "alac", "mp3"]

def APPLE_TV_SUPPORTED_CONTAINERS : List String := [".mp4", ".m4v", ".mov"]

def H264_MAX_LEVEL_1080P : ℚ := 42 / 10

def H264_MAX_LEVEL_4K : ℚ := 52 / 10

def HEVC_SUPPORTED_PROFILES : List String := ["main", "main 10", "main10"]

/-- The HEVC codec-name family, written inline twice in the source. -/
def HEVC_FAMILY : List String := ["hevc", "h265", "hvc1", "hev1"]

def MAX_WIDTH_4K : Int := 3840

def MAX_HEIGHT_4K : Int := 2160

def MAX_FPS : ℚ := 60

/-- `_parse_h264_level`: `None` → 0.0, numeric > 10 → value/10, other numeric
→ value, unparseable string → 0.0. -/
def parseH264Level : RawLevel → ℚ
  | .absent => 0
  | .num q => if q > 10 then q / 10 else q
  | .unparseable => 0

/-- `_get_video_stream`: first stream with `codec_type == "video"`. -/
def getVideoStream (pd : ProbeData) : Option MediaStream :=
  pd.streams.find? (fun s => s.codec_type == "video")

/-- `_get_audio_streams`: all streams with `codec_type == "audio"`. -/
def getAudioStreams (pd : ProbeData) : List MediaStream :=
  pd.streams.filter (fun s => s.codec_type == "audio")

/-! ### The classifier's check blocks, in source order -/

/-- Container check block. -/
def containerBlock (suffix : String) (r : AppleTVCompatibility) :
    AppleTVCompatibility :=
  let container_ext := lowerStr suffix
  let ok := APPLE_TV_SUPPORTED_CONTAINERS.contains container_ext
  let r := addCheck r
    { name := "Container"
      compatible := ok
      current_value := lstripChar '.' (upperStr container_ext)
      required_value := some "MP4/M4V/MOV"
      action_needed := if ok then none else some "Remux to MP4" }
  if ok then r
  else
    let r := { r with container_action := "remux" }
    if r.overall_status = .compatible then
      { r with overall_status := .needs_remux }
    else r

/-- Video codec check block (skipped when there is no video stream). -/
def videoCodecBlock (vs : Option MediaStream) (r : AppleTVCompatibility) :
    AppleTVCompatibility :=
  match vs with
  | none => r
  | some st =>
    let video_codec := lowerStr st.codec_name
    let ok := APPLE_TV_SUPPORTED_VIDEO_CODECS.contains video_codec
    let r := addCheck r
      { name := "Video Codec"
        compatible := ok
        current_value := upperStr video_codec
        required_value := some "H.264/HEVC"
        action_needed := if ok then none else some "Transcode video" }
    if ok then r
    else { r with video_action := "transcode", overall_status := .needs_transcode }

/-- The H.264 profile check entry. -/
def h264ProfileCheckEntry (st : MediaStream) : CompatibilityCheck :=
  let profile := lowerStr st.profile
  let ok := ["baseline", "main", "high", "constrained baseline"].contains profile
  { name := "H.264 Profile"
    compatible := ok
    current_value := if profile ≠ "" then titleStr profile else "Unknown"
    required_value := some "Baseline/Main/High"
    action_needed := if ok then none else some "Transcode video" }

/-- H.264 profile check block (only when the codec is h264/avc1). -/
def h264ProfileBlock (vs : Option MediaStream) (r : AppleTVCompatibility) :
    AppleTVCompatibility :=
  match vs with
  | none => r
  | some st =>
    let video_codec := lowerStr st.codec_name
    if video_codec = "h264" ∨ video_codec = "avc1" then
      let c := h264ProfileCheckEntry st
      let r := addCheck r c
      if c.compatible then r
      else { r with video_action := "transcode", overall_status := .needs_transcode }
    else r

/-- The H.264 level check entry: width-dependent ceiling, boundary-inclusive,
level ≤ 0 (unknown) treated compatible with current value "Unknown". -/
def h264LevelCheckEntry (st : MediaStream) : CompatibilityCheck :=
  let level := parseH264Level st.level
  let max_level := if st.width > 1920 then H264_MAX_LEVEL_4K else H264_MAX_LEVEL_1080P
  let ok := if level > 0 then decide (level ≤ max_level) else true
  { name := "H.264 Level"
    compatible := ok
    current_value := if level > 0 then formatFixed1 level else "Unknown"
    required_value := some ("≤" ++ formatFixed1 max_level)
    action_needed := if ok then none else some "Transcode video" }

/-- H.264 level check block (only when the codec is h264/avc1). -/
def h264LevelBlock (vs : Option MediaStream) (r : AppleTVCompatibility) :
    AppleTVCompatibility :=
  match vs with
  | none => r
  | some st =>
    let video_codec := lowerStr st.codec_name
    if video_codec = "h264" ∨ video_codec = "avc1" then
      let c := h264LevelCheckEntry st
      let r := addCheck r c
      if c.compatible then r
      else { r with video_action := "transcode", overall_status := .needs_transcode }
    else r

/-- HEVC profile check block (only when the codec is in the HEVC family;
an empty profile is compatible). -/
def hevcProfileBlock (vs : Option MediaStream) (r : AppleTVCompatibility) :
    AppleTVCompatibility :=
  match vs with
  | none => r
  | some st =>
    let video_codec := lowerStr st.codec_name
    if HEVC_FAMILY.contains video_codec then
      let profile := lowerStr st.profile
      let ok := HEVC_SUPPORTED_PROFILES.contains profile || profile = ""
      let c : CompatibilityCheck :=
        { name := "HEVC Profile"
          compatible := ok
          current_value := if profile ≠ "" then titleStr profile else "Unknown"
          required_value := some "Main/Main 10"
          action_needed := if ok then none else some "Transcode video" }
      let r := addCheck r c
      if ok then r
      else { r with video_action := "transcode", overall_status := .needs_transcode }
    else r

/-- Resolution check block. -/
def resolutionBlock (vs : Option MediaStream) (r : AppleTVCompatibility) :
    AppleTVCompatibility :=
  match vs with
  | none => r
  | some st =>
    let ok := decide (st.width ≤ MAX_WIDTH_4K) && decide (st.height ≤ MAX_HEIGHT_4K)
    let c : CompatibilityCheck :=
      { name := "Resolution"
        compatible := ok
        current_value := toString st.width ++ "x" ++ toString st.height
        required_value := some ("≤" ++ toString MAX_WIDTH_4K ++ "x" ++ toString MAX_HEIGHT_4K)
        action_needed := if ok then none else some "Transcode video" }
    let r := addCheck r c
    if ok then r
    else { r with video_action := "transcode", overall_status := .needs_transcode }

/-- The frame rate value the classifier computes from `r_frame_rate`
(zero denominator or an unparseable string yield 0). -/
def fpsOf : RawFps → ℚ
  | .frac num den => if den ≠ 0 then num / den else 0
  | .plain q => q
  | .bad => 0

/-- Frame rate check block (fps ≤ 0, i.e. unknown, treated compatible). -/
def frameRateBlock (vs : Option MediaStream) (r : AppleTVCompatibility) :
    AppleTVCompatibility :=
  match vs with
  | none => r
  | some st =>
    let fps := fpsOf st.r_frame_rate
    let ok := if fps > 0 then decide (fps ≤ MAX_FPS) else true
    let c : CompatibilityCheck :=
      { name := "Frame Rate"
        compatible := ok
        current_value := if fps > 0 then formatFixed3 fps ++ " fps" else "Unknown"
        required_value := some "≤60 fps"
        action_needed := if ok then none else some "Transcode video" }
    let r := addCheck r c
    if ok then r
    else { r with video_action := "transcode", overall_status := .needs_transcode }

/-- Bit depth classification from the pixel-format string. -/
def bitDepthOf (pix_fmt : String) : String :=
  if containsSub pix_fmt "10" || containsSub (lowerStr pix_fmt) "p10" then "10-bit"
  else if containsSub pix_fmt "12" || containsSub (lowerStr pix_fmt) "p12" then "12-bit"
  else "8-bit"

/-- The bit depth check entry: non-8-bit requires an HEVC-family codec and
12-bit is never compatible. -/
def bitDepthCheckEntry (st : MediaStream) : CompatibilityCheck :=
  let video_codec := lowerStr st.codec_name
  let bit_depth := bitDepthOf st.pix_fmt
  let ok1 := if bit_depth ≠ "8-bit" && !(HEVC_FAMILY.contains video_codec)
    then false else true
  let ok := if bit_depth = "12-bit" then false else ok1
  { name := "Bit Depth"
    compatible := ok
    current_value := bit_depth
    required_value := some "8-bit (H.264) or 8/10-bit (HEVC)"
    action_needed := if ok then none else some "Transcode video" }

/-- Bit depth check block. -/
def bitDepthBlock (vs : Option MediaStream) (r : AppleTVCompatibility) :
    AppleTVCompatibility :=
  match vs with
  | none => r
  | some st =>
    let c := bitDepthCheckEntry st
    let r := addCheck r c
    if c.compatible then r
    else { r with video_action := "transcode", overall_status := .needs_transcode }

/-- Audio codec check block: only the first audio stream is inspected; a
failing codec escalates a still-COMPATIBLE status to NEEDS_REMUX only. -/
def audioBlock (audioStreams : List MediaStream) (r : AppleTVCompatibility) :
    AppleTVCompatibility :=
  match audioStreams with
  | [] => r
  | st :: _ =>
    let audio_codec := lowerStr st.codec_name
    let ok := APPLE_TV_SUPPORTED_AUDIO_CODECS.contains audio_codec
    let channel_info :=
      if st.channel_layout ≠ "" then st.channel_layout
      else toString st.channels ++ "ch"
    let r := addCheck r
      { name := "Audio Codec"
        compatible := ok
        current_value := upperStr audio_codec ++ " (" ++ channel_info ++ ")"
        required_value := some "AAC/AC3/E-AC3/ALAC"
        action_needed := if ok then none else some "Transcode audio" }
    if ok then r
    else
      let r := { r with audio_action := "transcode" }
      if r.overall_status = .compatible then
        { r with overall_status := .needs_remux }
      else r

/-- The classifier's check blocks in their required evaluation order. -/
def compatBlocks (pd : ProbeData) (p : MediaPath) :
    List (AppleTVCompatibility → AppleTVCompatibility) :=
  let vs := getVideoStream pd
  [ containerBlock p.suffix
  , videoCodecBlock vs
  , h264ProfileBlock vs
  , h264LevelBlock vs
  , hevcProfileBlock vs
  , resolutionBlock vs
  , frameRateBlock vs
  , bitDepthBlock vs
  , audioBlock (getAudioStreams pd) ]

/-- Run a list of check blocks over a result in order. -/
def runBlocks (bs : List (AppleTVCompatibility → AppleTVCompatibility))
    (r : AppleTVCompatibility) : AppleTVCompatibility :=
  bs.foldl (fun acc b => b acc) r

/-- `check_apple_tv_compatibility`: run all blocks, then derive the
`estimated_time` advisory. -/
def checkAppleTvCompatibility (pd : ProbeData) (p : MediaPath) :
    AppleTVCompatibility :=
  let r := runBlocks (compatBlocks pd p) initCompat
  { r with estimated_time :=
      if r.video_action = "transcode" then "Long (video re-encoding required)"
      else if r.audio_action = "transcode" ∨ r.container_action = "remux" then
        "Fast (remux/audio only)"
      else "None (already compatible)" }

/-- The overall status after the first `n` check blocks of one evaluation. -/
def statusAfter (pd : ProbeData) (p : MediaPath) (n : Nat) :
    CompatibilityStatus :=
  (runBlocks ((compatBlocks pd p).take n) initCompat).overall_status

/-! ## Bitrate planner (`transcoder/utils.py`) -/

/-- `DEFAULT_AUDIO_BITRATE_KBPS` from `transcoder/constants.py`. -/
def DEFAULT_AUDIO_BITRATE_KBPS : ℚ := 192

/-- `calculate_target_bitrate`: returns `(total_bitrate_kbps,
video_bitrate_kbps)`. -/
def calculateTargetBitrate (duration_seconds target_size_mb_per_hour
    audio_bitrate_kbps : ℚ) : ℚ × ℚ :=
  let duration_hours := duration_seconds / 3600
  let target_size_mb := target_size_mb_per_hour * duration_hours
  let total_bitrate_kbps := target_size_mb * 8 * 1024 / duration_seconds
  let video_bitrate_kbps := max 0 (total_bitrate_kbps - audio_bitrate_kbps)
  (total_bitrate_kbps, video_bitrate_kbps)

/-- `calculate_target_bitrate` with its default audio bitrate argument. -/
def calculateTargetBitrateDefault (duration_seconds target_size_mb_per_hour : ℚ) :
    ℚ × ℚ :=
  calculateTargetBitrate duration_seconds target_size_mb_per_hour
    DEFAULT_AUDIO_BITRATE_KBPS

/-! ## Command/Encode planner mode decision -/

/-- The two encode plan modes. -/
inductive EncodeMode where
  | rewrap
  | transcode
deriving DecidableEq, Repr

/-- Modelled from the spec: the Command/Encode Planner's automatic
rewrap-vs-transcode decision (spec §4.5) — "choose rewrap iff neither
video_action nor audio_action is \"transcode\"; otherwise choose transcode."
The module implementing this decision (the final `transcode.py`, whose
`dry_run_analyze`/auto-mode helpers `main.py` imports) is not present in the
source tree; only its callers are. -/
def chooseModeAuto (c : AppleTVCompatibility) : EncodeMode :=
  if c.video_action ≠ "transcode" ∧ c.audio_action ≠ "transcode" then
    .rewrap
  else .transcode

/-! ## Language code normalization (`transcoder/language.py`)

The babelfish library is an external collaborator (spec §6); it is modelled as
a record of the three lookups the module performs on it, each returning
`none` when the lookup raises or the attribute is missing/invalid. -/

/-- The babelfish collaborator: `BabelLanguage(code).alpha3`,
`BabelLanguage.fromietf(code).alpha3` and `BabelLanguage(code).alpha2`,
with `none` covering a raised exception or a falsy/missing attribute. -/
structure BabelResolver where
  fromCodeAlpha3 : String → Option String
  fromIetfAlpha3 : String → Option String
  alpha2 : String → Option String

/-- The hardcoded ISO 639-2 bibliographic → terminological overrides. -/
def ISO6392_BIB_TO_TERM : List (String × String) :=
  [ ("fre", "fra"), ("chi", "zho"), ("cze", "ces"), ("dut", "nld")
  , ("ger", "deu"), ("gre", "ell"), ("ice", "isl"), ("mac", "mkd")
  , ("rum", "ron"), ("slo", "slk") ]

/-- The fallback ISO 639-2 → ISO 639-1 map of `iso6392_to_iso6391`. -/
def ISO6392_TO_ISO6391_MAP : List (String × String) :=
  [ ("eng", "en"), ("fra", "fr"), ("fre", "fr"), ("spa", "es"), ("deu", "de")
  , ("ger", "de"), ("ita", "it"), ("jpn", "ja"), ("kor", "ko"), ("por", "pt")
  , ("rus", "ru"), ("zho", "zh"), ("chi", "zh"), ("ces", "cs"), ("cze", "cs")
  , ("nld", "nl"), ("dut", "nl"), ("ell", "el"), ("gre", "el"), ("isl", "is")
  , ("ice", "is"), ("mkd", "mk"), ("mac", "mk"), ("ron", "ro"), ("rum", "ro")
  , ("slk", "sk"), ("slo", "sk") ]

/-- Model of `str.isalpha()`. -/
def isAlphaStr (s : String) : Bool := s.length > 0 && s.data.all Char.isAlpha

/-- A successful resolver result is used only when the alpha3 attribute is
truthy and of length 3; the code then lowercases it. -/
def validAlpha3 (o : Option String) : Option String :=
  match o with
  | some a3 => if a3.length = 3 then some (lowerStr a3) else none
  | none => none

/-- The generic resolver loop `for resolver in (fromietf, Language)` over the
original (uncased) code: first valid alpha3 wins, otherwise None. -/
def genericResolve (r : BabelResolver) (code : String) : Option String :=
  match validAlpha3 (r.fromIetfAlpha3 code) with
  | some v => some v
  | none => validAlpha3 (r.fromCodeAlpha3 code)

/-- `normalize_language_tag`: hardcoded bibliographic overrides first, then
a 3-letter fast path (babelfish or identity), then 2-letter and generic
babelfish resolution.  `babel = none` models the ImportError fallback where
`BabelLanguage` is `None`. -/
def normalizeLanguageTag (babel : Option BabelResolver) (code : String) :
    Option String :=
  if code = "" then none
  else
    let code_lower := stripStr (lowerStr code)
    match ISO6392_BIB_TO_TERM.lookup code_lower with
    | some v => some v
    | none =>
      if code_lower.length = 3 && isAlphaStr code_lower then
        match babel with
        | some r =>
          match r.fromCodeAlpha3 code_lower with
          | some a3 =>
            if a3.length = 3 then some (lowerStr a3) else some code_lower
          | none => some code_lower
        | none => some code_lower
      else
        let fromTwoLetter : Option String :=
          if code_lower.length = 2 && isAlphaStr code_lower then
            match babel with
            | some r => validAlpha3 (r.fromIetfAlpha3 code_lower)
            | none => none
          else none
        match fromTwoLetter with
        | some v => some v
        | none =>
          match babel with
          | some r => genericResolve r code
          | none => none

/-- `iso6392_to_iso6391`: babelfish's alpha2 first, then the fallback map. -/
def iso6392ToIso6391 (babel : Option BabelResolver) (code : String) :
    Option String :=
  if code = "" then none
  else
    let iso6392_lower := stripStr (lowerStr code)
    let viaBabel : Option String :=
      match babel with
      | some r =>
        match r.alpha2 iso6392_lower with
        | some a2 => if a2 ≠ "" then some (lowerStr a2) else none
        | none => none
      | none => none
    match viaBabel with
    | some v => some v
    | none => ISO6392_TO_ISO6391_MAP.lookup iso6392_lower

/-- The ten override triples (bibliographic, terminological, two-letter). -/
def BIB_ROUNDTRIP : List (String × String × String) :=
  [ ("fre", "fra", "fr"), ("chi", "zho", "zh"), ("cze", "ces", "cs")
  , ("dut", "nld", "nl"), ("ger", "deu", "de"), ("gre", "ell", "el")
  , ("ice", "isl", "is"), ("mac", "mkd", "mk"), ("rum", "ron", "ro")
  , ("slo", "slk", "sk") ]

/-- A babelfish stand-in whose every lookup fails; used to instantiate
universally quantified resolver arguments on concrete inputs. -/
def noBabelResolver : BabelResolver :=
  { fromCodeAlpha3 := fun _ => none
    fromIetfAlpha3 := fun _ => none
    alpha2 := fun _ => none }

/-! ## Filename pattern compiler (`transcoder/media_patterns.py`,
`build_pattern_regex`) -/

/-- The ten tokens of the fixed template vocabulary. -/
inductive PatternToken where
  | series
  | movie
  | title
  | year
  | season2
  | season12
  | episode2
  | episode12
  | airDate
  | specs
deriving DecidableEq, Repr

/-- `PATTERN_TOKEN_MAP`: template token string → token, in source order. -/
def PATTERN_TOKEN_MAP : List (String × PatternToken) :=
  [ ("<Series Name>", .series)
  , ("<Movie Name>", .movie)
  , ("<Episode Name>", .title)
  , ("<Year>", .year)
  , ("<season:2 digits>", .season2)
  , ("<season:1-2 digits>", .season12)
  , ("<episode:2 digits>", .episode2)
  , ("<episode:1-2 digits>", .episode12)
  , ("<Air Date>", .airDate)
  , ("<video specs>", .specs) ]

/-- One piece of the compiled pattern: a token's named-group regex or an
escaped literal character. -/
inductive RegexPiece where
  | tok (t : PatternToken)
  | lit (c : Char)
deriving DecidableEq, Repr

/-- The two failures of `build_pattern_regex`: `ValueError("Incomplete token
…")` for a `<` with no closing `>`, and `MetadataError("Unsupported token
…")` — the spec's PatternError tier — for a bracketed token outside the
vocabulary.  (The source's third failure, `re.error` from compiling the
assembled regex, is unreachable: every emitted piece is a fixed valid
fragment or an escaped literal.) -/
inductive TemplateError where
  | incomplete (tail : String)
  | unsupported (token : String)
deriving DecidableEq, Repr

/-- Split a char list at its first `'>'`: `some (before, after)` with the
`'>'` dropped, or `none` when there is none. -/
def spanToGt : List Char → Option (List Char × List Char)
  | [] => none
  | c :: rest =>
    if c = '>' then some ([], rest)
    else (spanToGt rest).map (fun pr => (c :: pr.1, pr.2))

/-- The scanning loop of `build_pattern_regex`.  The fuel argument bounds the
iteration count (each step consumes at least one character, so
`fuel = cs.length` never runs out); it makes the recursion structural. -/
def buildPiecesAux : Nat → List Char → Except TemplateError (List RegexPiece)
  | 0, _ => .ok []
  | _ + 1, [] => .ok []
  | fuel + 1, c :: rest =>
    if c = '<' then
      match spanToGt rest with
      | none => .error (.incomplete (String.mk (c :: rest)))
      | some (body, rest2) =>
        let tokenStr := String.mk ('<' :: (body ++ ['>']))
        match PATTERN_TOKEN_MAP.lookup tokenStr with
        | some t => (buildPiecesAux fuel rest2).map (fun ps => .tok t :: ps)
        | none => .error (.unsupported tokenStr)
    else
      (buildPiecesAux fuel rest).map (fun ps => .lit c :: ps)

/-- `build_pattern_regex`: compile a template into its regex pieces or fail.
(The source wraps the pieces in `^…$` and `re.compile`; anchoring is implicit
in the piece list.) -/
def buildPatternRegex (pattern : String) : Except TemplateError (List RegexPiece) :=
  buildPiecesAux pattern.data.length pattern.data

/-- The template contains a bracketed token `<…>` (closed at the first `>`
after its `<`) that is not in the vocabulary. -/
def HasUnsupportedToken (cs : List Char) : Prop :=
  ∃ pre body post,
    cs = pre ++ '<' :: (body ++ '>' :: post) ∧
    '>' ∉ body ∧
    PATTERN_TOKEN_MAP.lookup (String.mk ('<' :: (body ++ ['>']))) = none

/-! ## Metadata auto-detection (`transcoder/media_patterns.py`)

The module's regexes are embedded as explicit matchers with the same
leftmost-match, greedy/lazy semantics on the specific patterns.  Recursions
that shorten the input by a variable amount carry a fuel argument equal to
the input length — each step consumes at least one character, so the fuel
never runs out — keeping them structural (kernel-reducible). -/

/-- `MediaType` enum. -/
inductive MediaType where
  | movie
  | tv_show
deriving DecidableEq, Repr

/-- `EpisodeMetadata` dataclass. -/
structure EpisodeMetadata where
  series_name : String
  episode_title : String
  year : Option Int
  season_number : Option Int
  episode_number : Option Int
  air_date : Option String
  pattern_name : Option String
deriving DecidableEq, Repr

/-- `MovieMetadata` dataclass. -/
structure MovieMetadata where
  movie_title : String
  year : Option Int
  edition : Option String
  pattern_name : Option String
deriving DecidableEq, Repr

/-- The movie/episode union held by a detection result. -/
inductive DetectedMetadata where
  | episode (e : EpisodeMetadata)
  | movie (m : MovieMetadata)
deriving DecidableEq, Repr

/-- `MetadataDetection` dataclass. -/
structure MetadataDetection where
  media_type : MediaType
  metadata : DetectedMetadata
  pattern_name : String
  matched : Bool
  is_manual : Bool
deriving DecidableEq, Repr

/-- A `RELEASE_TOKEN_BOUNDARY` separator character (`[ ._\\-]`). -/
def isSepChar (c : Char) : Bool := c = ' ' || c = '.' || c = '_' || c = '-'

/-- Chars after the first `']'`, if any; helper for the `\\[.*?\\]`
stripper. -/
def spanToRBracket : List Char → Option (List Char)
  | [] => none
  | c :: rest => if c = ']' then some rest else spanToRBracket rest

/-- `re.sub(r"\\[.*?\\]", "", …)`: drop each `[` together with everything up
to the nearest following `]`; a `[` with no closing `]` is kept. -/
def removeBracketedAux : Nat → List Char → List Char
  | 0, l => l
  | _ + 1, [] => []
  | fuel + 1, c :: rest =>
    if c = '[' then
      match spanToRBracket rest with
      | some rest' => removeBracketedAux fuel rest'
      | none => c :: removeBracketedAux fuel rest
    else c :: removeBracketedAux fuel rest

def removeBracketed (l : List Char) : List Char := removeBracketedAux l.length l

/-- `re.sub(r"\\s+", " ", …)`: collapse each whitespace run to one space. -/
def collapseSpacesAux : Nat → List Char → List Char
  | 0, l => l
  | _ + 1, [] => []
  | fuel + 1, c :: rest =>
    if c.isWhitespace then
      ' ' :: collapseSpacesAux fuel (rest.dropWhile Char.isWhitespace)
    else c :: collapseSpacesAux fuel rest

def collapseSpaces (l : List Char) : List Char := collapseSpacesAux l.length l

/-- `re.sub(r"-[A-Za-z0-9]+$", "", …)`: drop a trailing `-GROUP` release
suffix (a dash followed by a nonempty alphanumeric run ending the string). -/
def dropTrailingGroupTag (l : List Char) : List Char :=
  let r := l.reverse
  let suf := r.takeWhile Char.isAlphanum
  let rest := r.dropWhile Char.isAlphanum
  match suf, rest with
  | _ :: _, '-' :: rest' => rest'.reverse
  | _, _ => l

/-- `_clean_component`: strip `[…]`, `_`/`.` → space, collapse whitespace,
trim separators, drop a trailing `-GROUP`, strip whitespace. -/
def cleanComponent (value : String) : String :=
  let l := removeBracketed value.data
  let l := l.map (fun c => if c = '_' || c = '.' then ' ' else c)
  let l := collapseSpaces l
  let l := stripCharsList [' ', '-', '_', '.'] l
  let l := dropTrailingGroupTag l
  let l := (l.dropWhile Char.isWhitespace).reverse.dropWhile Char.isWhitespace
  String.mk l.reverse

/-- Split into the maximal runs of non-separator characters
(`RELEASE_TOKEN_BOUNDARY.split` with the loop's empty-token skip). -/
def splitSepsAux : Nat → List Char → List (List Char)
  | 0, _ => []
  | _ + 1, [] => []
  | fuel + 1, c :: rest =>
    if isSepChar c then splitSepsAux fuel rest
    else
      (c :: rest.takeWhile (fun x => !(isSepChar x))) ::
        splitSepsAux fuel (rest.dropWhile (fun x => !(isSepChar x)))

def splitSeps (l : List Char) : List (List Char) := splitSepsAux l.length l

/-- `QUALITY_BREAK_WORDS` from the source (entries containing separator
characters can never equal a boundary-split token, but are kept verbatim). -/
def QUALITY_BREAK_WORDS : List String :=
  [ "480P", "720P", "1080P", "2160P", "4K", "8K", "BLURAY", "BDRIP", "BRRIP"
  , "WEB", "WEBRIP", "WEBDL", "WEB-DL", "HDR", "HDR10", "HDR10PLUS", "DOLBY"
  , "DV", "ATMOS", "DDP5", "DDP5.1", "TRUEHD", "REMUX", "UHD", "IMAX", "AMZN"
  , "HMAX", "MAX", "HULU", "NF", "NETFLIX", "H265", "X265", "H264", "X264"
  , "AV1" ]

/-- `QUALITY_NUMBER_PATTERN.match(token)`: `^\\d{3,4}P$`, case-insensitive. -/
def isQualityNumberTok (tok : List Char) : Bool :=
  (tok.length = 4 || tok.length = 5) &&
    tok.dropLast.all Char.isDigit &&
    (match tok.getLast? with
     | some c => c = 'P' || c = 'p'
     | none => false)

/-- Keep tokens up to (excluding) the first quality/source/codec marker. -/
def takeUntilQuality : List (List Char) → List (List Char)
  | [] => []
  | t :: rest =>
    if QUALITY_BREAK_WORDS.contains (String.mk (t.map Char.toUpper)) ||
        isQualityNumberTok t then []
    else t :: takeUntilQuality rest

/-- `_clean_episode_title`: parens → spaces, strip `[…]`, tokenize on
separator runs, truncate at the first quality token, rejoin and strip. -/
def cleanEpisodeTitle (value : String) : String :=
  if value = "" then ""
  else
    let l := value.data.map (fun c => if c = '(' || c = ')' then ' ' else c)
    let l := removeBracketed l
    let kept := takeUntilQuality (splitSeps l)
    stripStr (String.mk (List.intercalate [' '] kept))

/-- Numeric value of a digit list (digits are ASCII). -/
def digitsToInt (l : List Char) : Int :=
  l.foldl (fun acc c => acc * 10 + (Int.ofNat (c.toNat - '0'.toNat))) 0

/-- `_safe_int`: `int(value)` with failures returning None.  (The detector
only ever passes digit strings; signs/whitespace tolerated by `int()` never
occur.) -/
def safeInt (value : Option String) : Option Int :=
  match value with
  | none => none
  | some s =>
    if s ≠ "" && s.data.all Char.isDigit then some (digitsToInt s.data)
    else none

/-- `_split_trailing_year`: a trailing `(YYYY)` (checked first) or bare
trailing `YYYY` on the stripped value is extracted; the trim slices the
original value at the match position, exactly as the source does. -/
def splitTrailingYear (value : String) : String × Option Int :=
  if value = "" then ("", none)
  else
    let stripped := ((value.data.dropWhile Char.isWhitespace).reverse.dropWhile
        Char.isWhitespace).reverse
    match stripped.reverse with
    | ')' :: d :: c :: b :: a :: '(' :: _ =>
      if a.isDigit && b.isDigit && c.isDigit && d.isDigit then
        ( String.mk (stripCharsList [' ', '-', '_', '.']
            (value.data.take (stripped.length - 6)))
        , some (digitsToInt [a, b, c, d]) )
      else
        match stripped.reverse with
        | w :: x :: y :: z :: _ =>
          if z.isDigit && y.isDigit && x.isDigit && w.isDigit then
            ( String.mk (stripCharsList [' ', '-', '_', '.']
                (value.data.take (stripped.length - 4)))
            , some (digitsToInt [z, y, x, w]) )
          else (value, none)
        | _ => (value, none)
    | w :: x :: y :: z :: _ =>
      if z.isDigit && y.isDigit && x.isDigit && w.isDigit then
        ( String.mk (stripCharsList [' ', '-', '_', '.']
            (value.data.take (stripped.length - 4)))
        , some (digitsToInt [z, y, x, w]) )
      else (value, none)
    | _ => (value, none)

/-- Python's `or` chain on possibly-empty strings: first truthy value. -/
def orStr (a b : String) : String := if a ≠ "" then a else b

/-- `_build_episode_from_parts`. -/
def buildEpisodeFromParts (seriesPart suffixPart : String)
    (seasonValue episodeValue : Option String) (patternName : String) :
    EpisodeMetadata :=
  let p := splitTrailingYear seriesPart
  let cleaned_series := cleanComponent p.1
  let cleaned_title := cleanEpisodeTitle suffixPart
  { series_name := orStr cleaned_series (orStr suffixPart "")
    episode_title := orStr cleaned_title (orStr cleaned_series (orStr suffixPart ""))
    year := p.2
    season_number := safeInt seasonValue
    episode_number := safeInt episodeValue
    air_date := none
    pattern_name := some patternName }

/-- `_build_episode_from_groups`. -/
def buildEpisodeFromGroups (rawSeries rawTitle : String)
    (seasonValue episodeValue : Option String) (patternName : String) :
    EpisodeMetadata :=
  let p := splitTrailingYear rawSeries
  let cleaned_series := cleanComponent p.1
  let cleaned_title := cleanEpisodeTitle rawTitle
  { series_name := cleaned_series
    episode_title := orStr cleaned_title cleaned_series
    year := p.2
    season_number := safeInt seasonValue
    episode_number := safeInt episodeValue
    air_date := none
    pattern_name := some patternName }

/-- `E\\d{2}` at the head of the list (case-insensitive `E`). -/
def seMatchTailE : List Char → Option (String × List Char)
  | e :: a :: b :: rest =>
    if (e = 'E' || e = 'e') && a.isDigit && b.isDigit then
      some (String.mk [a, b], rest)
    else none
  | _ => none

/-- `S(\\d{1,2})E(\\d{2})` anchored at the head: greedy two-digit season
first, one digit on failure (at most one alternative can match, since a
digit cannot equal `E`). -/
def seMatchAt : List Char → Option (String × String × List Char)
  | s :: d1 :: rest1 =>
    if (s = 'S' || s = 's') && d1.isDigit then
      match rest1 with
      | d2 :: rest2 =>
        if d2.isDigit then
          match seMatchTailE rest2 with
          | some pr => some (String.mk [d1, d2], pr.1, pr.2)
          | none =>
            match seMatchTailE rest1 with
            | some pr => some (String.mk [d1], pr.1, pr.2)
            | none => none
        else
          match seMatchTailE rest1 with
          | some pr => some (String.mk [d1], pr.1, pr.2)
          | none => none
      | [] => none
    else none
  | _ => none

/-- `SEASON_EPISODE_PATTERN.search`: leftmost `S##E##`, returning
(text before, season digits, episode digits, text after). -/
def seSearchAux (acc : List Char) :
    List Char → Option (List Char × String × String × List Char)
  | [] => none
  | c :: rest =>
    match seMatchAt (c :: rest) with
    | some pr => some (acc.reverse, pr.1, pr.2.1, pr.2.2)
    | none => seSearchAux (c :: acc) rest

def seSearch (l : List Char) :
    Option (List Char × String × String × List Char) :=
  seSearchAux [] l

/-- `x\\d{2}` at the head of the list (case-insensitive `x`). -/
def altTailX : List Char → Option (String × List Char)
  | x :: a :: b :: rest =>
    if (x = 'x' || x = 'X') && a.isDigit && b.isDigit then
      some (String.mk [a, b], rest)
    else none
  | _ => none

/-- `(\\d{1,2})x(\\d{2})` anchored at the head, greedy season digits. -/
def altMatchAt : List Char → Option (String × String × List Char)
  | d1 :: rest1 =>
    if d1.isDigit then
      match rest1 with
      | d2 :: rest2 =>
        if d2.isDigit then
          match altTailX rest2 with
          | some pr => some (String.mk [d1, d2], pr.1, pr.2)
          | none =>
            match altTailX rest1 with
            | some pr => some (String.mk [d1], pr.1, pr.2)
            | none => none
        else
          match altTailX rest1 with
          | some pr => some (String.mk [d1], pr.1, pr.2)
          | none => none
      | [] => none
    else none
  | [] => none

/-- `ALT_SEASON_EPISODE_PATTERN.search`: leftmost `#x##`. -/
def altSearchAux (acc : List Char) :
    List Char → Option (List Char × String × String × List Char)
  | [] => none
  | c :: rest =>
    match altMatchAt (c :: rest) with
    | some pr => some (acc.reverse, pr.1, pr.2.1, pr.2.2)
    | none => altSearchAux (c :: acc) rest

def altSearch (l : List Char) :
    Option (List Char × String × String × List Char) :=
  altSearchAux [] l

/-- `COMBINED_EPISODE_PATTERN.search`: leftmost `(?<!\\d)\\d{3}(?!\\d)`,
tracking the previous character for the lookbehind. -/
def combinedSearchAux (prev : Option Char) (acc : List Char) :
    List Char → Option (List Char × List Char × List Char)
  | d1 :: d2 :: d3 :: rest =>
    if (match prev with | some c => !c.isDigit | none => true) &&
        d1.isDigit && d2.isDigit && d3.isDigit &&
        (match rest with | c :: _ => !c.isDigit | [] => true) then
      some (acc.reverse, [d1, d2, d3], rest)
    else combinedSearchAux (some d1) (d1 :: acc) (d2 :: d3 :: rest)
  | _ => none

def combinedSearch (l : List Char) :
    Option (List Char × List Char × List Char) :=
  combinedSearchAux none [] l

/-- `\\d{4}-\\d{2}-\\d{2}` anchored at the head. -/
def dateMatchAt : List Char → Option (List Char × List Char)
  | a :: b :: c :: d :: s1 :: e :: f :: s2 :: g :: h :: rest =>
    if a.isDigit && b.isDigit && c.isDigit && d.isDigit && s1 = '-' &&
        e.isDigit && f.isDigit && s2 = '-' && g.isDigit && h.isDigit then
      some ([a, b, c, d, '-', e, f, '-', g, h], rest)
    else none
  | _ => none

/-- `DATE_EPISODE_PATTERN.search`: leftmost ISO date. -/
def dateSearchAux (acc : List Char) :
    List Char → Option (List Char × List Char × List Char)
  | [] => none
  | c :: rest =>
    match dateMatchAt (c :: rest) with
    | some pr => some (acc.reverse, pr.1, pr.2)
    | none => dateSearchAux (c :: acc) rest

def dateSearch (l : List Char) :
    Option (List Char × List Char × List Char) :=
  dateSearchAux [] l

/-- The continuation of the dash pattern after the lazy series group:
`\\s*-\\s*S(\\d{1,2})E(\\d{2})\\s*-\\s*(.+)$`.  The `\\s*` runs are
deterministic (each is followed by a non-whitespace requirement); a final
all-whitespace remainder still matches `(.+)` through its last character. -/
def dashAfterSeries (l : List Char) : Option (String × String × List Char) :=
  match l.dropWhile Char.isWhitespace with
  | '-' :: l2 =>
    match seMatchAt (l2.dropWhile Char.isWhitespace) with
    | some pr =>
      match pr.2.2.dropWhile Char.isWhitespace with
      | '-' :: l6 =>
        match l6 with
        | [] => none
        | _ :: _ =>
          match l6.dropWhile Char.isWhitespace with
          | [] =>
            match l6.getLast? with
            | some lc => some (pr.1, pr.2.1, [lc])
            | none => none
          | t => some (pr.1, pr.2.1, t)
      | _ => none
    | none => none
  | _ => none

/-- The anchored dash pattern
`^(.+?)\\s*-\\s*S(\\d{1,2})E(\\d{2})\\s*-\\s*(.+)$`: the lazy series group
tries the shortest nonempty prefix first. -/
def dashMatchAux (seriesAcc : List Char) :
    List Char → Option (String × String × String × String)
  | [] => none
  | c :: rest =>
    match dashAfterSeries (c :: rest) with
    | some pr => some (String.mk seriesAcc.reverse, pr.1, pr.2.1,
        String.mk pr.2.2)
    | none => dashMatchAux (c :: seriesAcc) rest

def dashMatch : List Char → Option (String × String × String × String)
  | [] => none
  | c :: rest => dashMatchAux [c] rest

/-- The optional release tail `(?:[ ._\\-]+(.+))?$` after a year group:
`some none` for end-of-string, `some (some rest)` for a separator run
followed by a nonempty rest (greedy separators, backtracking one when the
remainder would otherwise be empty), `none` when nothing matches. -/
def optTailRest (tail : List Char) : Option (Option String) :=
  match tail with
  | [] => some none
  | _ :: _ =>
    if (tail.takeWhile isSepChar).isEmpty then none
    else
      match tail.dropWhile isSepChar with
      | r :: rs => some (some (String.mk (r :: rs)))
      | [] =>
        match tail with
        | [_] => none
        | _ =>
          match tail.getLast? with
          | some lc => some (some (String.mk [lc]))
          | none => none

/-- The continuation of the paren movie pattern after the lazy title:
`\\s*\\((\\d{4})\\)(?:[ ._\\-]+(.+))?$`. -/
def parenAfterTitle (l : List Char) : Option (String × Option String) :=
  match l.dropWhile Char.isWhitespace with
  | '(' :: a :: b :: c :: d :: ')' :: tail =>
    if a.isDigit && b.isDigit && c.isDigit && d.isDigit then
      match optTailRest tail with
      | some rest => some (String.mk [a, b, c, d], rest)
      | none => none
    else none
  | _ => none

/-- `^(.+?)\\s*\\((\\d{4})\\)(?:[ ._\\-]+(.+))?$`, lazy title. -/
def parenMatchAux (titleAcc : List Char) :
    List Char → Option (String × String × Option String)
  | [] => none
  | c :: rest =>
    match parenAfterTitle (c :: rest) with
    | some pr => some (String.mk titleAcc.reverse, pr.1, pr.2)
    | none => parenMatchAux (c :: titleAcc) rest

def parenMatch : List Char → Option (String × String × Option String)
  | [] => none
  | c :: rest => parenMatchAux [c] rest

/-- `^(.+)[ ._\\-](\\d{4})(?:[ ._\\-]+(.+))?$`, greedy title: the rightmost
boundary that lets the remainder match wins. -/
def dottedScan (processed : List Char) :
    List Char → Option (String × String × Option String)
  | [] => none
  | c :: rest =>
    match dottedScan (c :: processed) rest with
    | some res => some res
    | none =>
      if processed ≠ [] && isSepChar c then
        match rest with
        | a :: b :: d :: e :: tail =>
          if a.isDigit && b.isDigit && d.isDigit && e.isDigit then
            match optTailRest tail with
            | some restGroup =>
              some (String.mk processed.reverse, String.mk [a, b, d, e],
                restGroup)
            | none => none
          else none
        | _ => none
      else none

def dottedMatch (l : List Char) : Option (String × String × Option String) :=
  dottedScan [] l

/-- `EDITION_BLOCK_PATTERN` match at the head: `\x7bedition-([^\x7d]+)\x7d`,
case-insensitive on the literal part. -/
def editionAt (l : List Char) : Option String :=
  if ['\x7b', 'e', 'd', 'i', 't', 'i', 'o', 'n', '-'].isPrefixOf
      (l.take 9 |>.map Char.toLower) then
    let rest := l.drop 9
    let body := rest.takeWhile (fun c => c ≠ '\x7d')
    match rest.drop body.length with
    | '\x7d' :: _ => if body.isEmpty then none else some (String.mk body)
    | _ => none
  else none

/-- `EDITION_BLOCK_PATTERN.search`: leftmost edition block. -/
def editionSearch : List Char → Option String
  | [] => none
  | c :: rest =>
    match editionAt (c :: rest) with
    | some s => some s
    | none => editionSearch rest

/-- `_build_movie_from_groups`. -/
def buildMovieFromGroups (rawTitle rawYear : String) (rest : Option String)
    (patternName : String) : MovieMetadata :=
  let cleaned_title := cleanComponent rawTitle
  let edition :=
    match rest with
    | some r =>
      match editionSearch r.data with
      | some e => some (stripStr e)
      | none => none
    | none => none
  { movie_title := cleaned_title
    year := safeInt (some rawYear)
    edition := edition
    pattern_name := some patternName }

/-- `_detect_tv_metadata`: the five TV strategies in priority order, with the
combined-marker guards (codec letter before, `P` after, 1900–2099 value). -/
def detectTvMetadata (name : String) : Option EpisodeMetadata :=
  let l := name.data
  match dashMatch l with
  | some pr =>
    some (buildEpisodeFromGroups pr.1 pr.2.2.2 (some pr.2.1) (some pr.2.2.1)
      "tv_dash_title")
  | none =>
  match seSearch l with
  | some pr =>
    some (buildEpisodeFromParts (String.mk pr.1) (String.mk pr.2.2.2)
      (some pr.2.1) (some pr.2.2.1) "tv_standard")
  | none =>
  match altSearch l with
  | some pr =>
    some (buildEpisodeFromParts (String.mk pr.1) (String.mk pr.2.2.2)
      (some pr.2.1) (some pr.2.2.1) "tv_alt_1x")
  | none =>
  let combinedResult :=
    match combinedSearch l with
    | some pr =>
      let guardCodec :=
        match pr.1.getLast? with
        | some c => c.toUpper = 'X' || c.toUpper = 'H'
        | none => false
      let guardRes :=
        match pr.2.2.head? with
        | some c => c.toUpper = 'P'
        | none => false
      let yearValue := digitsToInt pr.2.1
      let guardYear := decide (1900 ≤ yearValue) && decide (yearValue ≤ 2099)
      if guardCodec || guardRes || guardYear then none
      else
        some (buildEpisodeFromParts (String.mk pr.1) (String.mk pr.2.2)
          (some (String.mk (pr.2.1.take 1))) (some (String.mk (pr.2.1.drop 1)))
          "tv_three_digit")
    | none => none
  match combinedResult with
  | some md => some md
  | none =>
  match dateSearch l with
  | some pr =>
    let md := buildEpisodeFromParts (String.mk pr.1) (String.mk pr.2.2)
      none none "tv_airdate"
    some { md with
      air_date := some (String.mk pr.2.1)
      year := safeInt (some (String.mk (pr.2.1.take 4))) }
  | none => none

/-- `_detect_movie_metadata`: paren-year pattern first, dotted-year second. -/
def detectMovieMetadata (name : String) : Option MovieMetadata :=
  let l := name.data
  match parenMatch l with
  | some pr => some (buildMovieFromGroups pr.1 pr.2.1 pr.2.2 "movie_paren_year")
  | none =>
  match dottedMatch l with
  | some pr => some (buildMovieFromGroups pr.1 pr.2.1 pr.2.2 "movie_dotted_year")
  | none => none

/-- `pattern_name or default` (empty string falsy). -/
def orElseStr (o : Option String) (d : String) : String :=
  match o with
  | some s => if s = "" then d else s
  | none => d

/-- `auto_detect_metadata` on the stem: TV detection first, movie second. -/
def autoDetectMetadata (stemStr : String) : Option MetadataDetection :=
  match detectTvMetadata stemStr with
  | some em =>
    some { media_type := .tv_show
           metadata := .episode em
           pattern_name := orElseStr em.pattern_name "auto-tv"
           matched := true
           is_manual := false }
  | none =>
    match detectMovieMetadata stemStr with
    | some mm =>
      some { media_type := .movie
             metadata := .movie mm
             pattern_name := orElseStr mm.pattern_name "auto-movie"
             matched := true
             is_manual := false }
    | none => none

/-- `pathlib.Path(name).stem`: drop the last `.suffix` when the final dot is
neither the first nor the last character of the name. -/
def pathStem (nameStr : String) : String :=
  let l := nameStr.data
  match l.reverse.dropWhile (fun c => c ≠ '.') with
  | '.' :: restRev =>
    if restRev.length > 0 && !(l.reverse.takeWhile (fun c => c ≠ '.')).isEmpty
    then String.mk restRev.reverse
    else nameStr
  | _ => nameStr

/-! ## Auxiliary definitions for the statements -/

/-- A check block never lowers the overall status. -/
def StatusMono (f : AppleTVCompatibility → AppleTVCompatibility) : Prop :=
  ∀ r, statusLe r.overall_status (f r).overall_status

/-- Probe data with no streams (concrete instantiation data). -/
def sampleProbe : ProbeData := { streams := [] }

/-- A `.mkv` input path (concrete instantiation data). -/
def sampleMkvPath : MediaPath := { suffix := ".mkv" }

/-- An H.264 1080p stream whose raw level is the integer 42. -/
def streamH264Level42 : MediaStream :=
  { codec_type := "video", codec_name := "h264", profile := "high"
    level := .num 42, width := 1920, height := 1080
    r_frame_rate := .frac 24000 1001, pix_fmt := "yuv420p"
    channels := 0, channel_layout := "" }

/-- An H.264 stream with no level field. -/
def streamH264NoLevel : MediaStream :=
  { codec_type := "video", codec_name := "h264", profile := "high"
    level := .absent, width := 1920, height := 1080
    r_frame_rate := .frac 24 1, pix_fmt := "yuv420p"
    channels := 0, channel_layout := "" }

/-- An H.264 stream with a 10-bit pixel format. -/
def streamH264TenBit : MediaStream :=
  { codec_type := "video", codec_name := "h264", profile := "high"
    level := .num 41, width := 1920, height := 1080
    r_frame_rate := .frac 24 1, pix_fmt := "yuv420p10le"
    channels := 0, channel_layout := "" }

/-- A DTS audio stream (not in the supported audio codec set). -/
def streamDtsAudio : MediaStream :=
  { codec_type := "audio", codec_name := "dts", profile := ""
    level := .absent, width := 0, height := 0
    r_frame_rate := .frac 0 1, pix_fmt := ""
    channels := 6, channel_layout := "5.1(side)" }

/-! ## Status escalation lemmas -/

theorem statusLe_rfl (a : CompatibilityStatus) : statusLe a a := Nat.le_refl _

theorem statusLe_trans {a b c : CompatibilityStatus} (h1 : statusLe a b)
    (h2 : statusLe b c) : statusLe a c := Nat.le_trans h1 h2

theorem statusLe_needs_transcode (a : CompatibilityStatus) :
    statusLe a .needs_transcode := by
  cases a <;> simp [statusLe, CompatibilityStatus.rank]

theorem statusLe_escalateIf (a : CompatibilityStatus) :
    statusLe a (if a = CompatibilityStatus.compatible then
      CompatibilityStatus.needs_remux else a) := by
  cases a <;> simp [statusLe, CompatibilityStatus.rank]

theorem containerBlock_mono (s : String) : StatusMono (containerBlock s) := by
  intro r
  obtain ⟨st, cs, va, aa, ca, et⟩ := r
  simp only [containerBlock, addCheck]
  split_ifs <;>
    first
      | exact statusLe_rfl _
      | exact statusLe_needs_transcode _
      | simp_all [statusLe, CompatibilityStatus.rank]

theorem videoCodecBlock_mono (vs : Option MediaStream) :
    StatusMono (videoCodecBlock vs) := by
  intro r
  obtain ⟨st, cs, va, aa, ca, et⟩ := r
  cases vs with
  | none => exact statusLe_rfl _
  | some s =>
    simp only [videoCodecBlock, addCheck]
    split_ifs <;>
      first
        | exact statusLe_rfl _
        | exact statusLe_needs_transcode _
        | simp_all [statusLe, CompatibilityStatus.rank]

theorem h264ProfileBlock_mono (vs : Option MediaStream) :
    StatusMono (h264ProfileBlock vs) := by
  intro r
  obtain ⟨st, cs, va, aa, ca, et⟩ := r
  cases vs with
  | none => exact statusLe_rfl _
  | some s =>
    simp only [h264ProfileBlock, addCheck]
    split_ifs <;>
      first
        | exact statusLe_rfl _
        | exact statusLe_needs_transcode _
        | simp_all [statusLe, CompatibilityStatus.rank]

theorem h264LevelBlock_mono (vs : Option MediaStream) :
    StatusMono (h264LevelBlock vs) := by
  intro r
  obtain ⟨st, cs, va, aa, ca, et⟩ := r
  cases vs with
  | none => exact statusLe_rfl _
  | some s =>
    simp only [h264LevelBlock, addCheck]
    split_ifs <;>
      first
        | exact statusLe_rfl _
        | exact statusLe_needs_transcode _
        | simp_all [statusLe, CompatibilityStatus.rank]

theorem hevcProfileBlock_mono (vs : Option MediaStream) :
    StatusMono (hevcProfileBlock vs) := by
  intro r
  obtain ⟨st, cs, va, aa, ca, et⟩ := r
  cases vs with
  | none => exact statusLe_rfl _
  | some s =>
    simp only [hevcProfileBlock, addCheck]
    split_ifs <;>
      first
        | exact statusLe_rfl _
        | exact statusLe_needs_transcode _
        | simp_all [statusLe, CompatibilityStatus.rank]

theorem resolutionBlock_mono (vs : Option MediaStream) :
    StatusMono (resolutionBlock vs) := by
  intro r
  obtain ⟨st, cs, va, aa, ca, et⟩ := r
  cases vs with
  | none => exact statusLe_rfl _
  | some s =>
    simp only [resolutionBlock, addCheck]
    split_ifs <;>
      first
        | exact statusLe_rfl _
        | exact statusLe_needs_transcode _
        | simp_all [statusLe, CompatibilityStatus.rank]

theorem frameRateBlock_mono (vs : Option MediaStream) :
    StatusMono (frameRateBlock vs) := by
  intro r
  obtain ⟨st, cs, va, aa, ca, et⟩ := r
  cases vs with
  | none => exact statusLe_rfl _
  | some s =>
    simp only [frameRateBlock, addCheck]
    split_ifs <;>
      first
        | exact statusLe_rfl _
        | exact statusLe_needs_transcode _
        | simp_all [statusLe, CompatibilityStatus.rank]

theorem bitDepthBlock_mono (vs : Option MediaStream) :
    StatusMono (bitDepthBlock vs) := by
  intro r
  obtain ⟨st, cs, va, aa, ca, et⟩ := r
  cases vs with
  | none => exact statusLe_rfl _
  | some s =>
    simp only [bitDepthBlock, addCheck]
    split_ifs <;>
      first
        | exact statusLe_rfl _
        | exact statusLe_needs_transcode _
        | simp_all [statusLe, CompatibilityStatus.rank]

theorem audioBlock_mono (streams : List MediaStream) :
    StatusMono (audioBlock streams) := by
  intro r
  obtain ⟨st, cs, va, aa, ca, et⟩ := r
  cases streams with
  | nil => exact statusLe_rfl _
  | cons s rest =>
    simp only [audioBlock, addCheck]
    split_ifs <;>
      first
        | exact statusLe_rfl _
        | exact statusLe_needs_transcode _
        | simp_all [statusLe, CompatibilityStatus.rank]

theorem compatBlocks_mono (pd : ProbeData) (p : MediaPath) :
    ∀ f ∈ compatBlocks pd p, StatusMono f := by
  intro f hf
  simp only [compatBlocks, List.mem_cons, List.not_mem_nil, or_false] at hf
  rcases hf with rfl | rfl | rfl | rfl | rfl | rfl | rfl | rfl | rfl
  · exact containerBlock_mono _
  · exact videoCodecBlock_mono _
  · exact h264ProfileBlock_mono _
  · exact h264LevelBlock_mono _
  · exact hevcProfileBlock_mono _
  · exact resolutionBlock_mono _
  · exact frameRateBlock_mono _
  · exact bitDepthBlock_mono _
  · exact audioBlock_mono _

theorem runBlocks_append (A B : List (AppleTVCompatibility → AppleTVCompatibility))
    (r : AppleTVCompatibility) :
    runBlocks (A ++ B) r = runBlocks B (runBlocks A r) := by
  simp [runBlocks, List.foldl_append]

theorem runBlocks_mono (bs : List (AppleTVCompatibility → AppleTVCompatibility))
    (h : ∀ f ∈ bs, StatusMono f) (r : AppleTVCompatibility) :
    statusLe r.overall_status (runBlocks bs r).overall_status := by
  induction bs generalizing r with
  | nil => exact statusLe_rfl _
  | cons b rest ih =>
    have h1 := h b (List.mem_cons_self b rest) r
    have h2 := ih (fun f hf => h f (List.mem_cons_of_mem _ hf)) (b r)
    simp only [runBlocks, List.foldl_cons] at h2 ⊢
    exact statusLe_trans h1 h2

/-! ## Claim theorems -/

/-- C1: during one evaluation of `check_apple_tv_compatibility`, the overall
status only escalates along COMPATIBLE < NEEDS_REMUX < NEEDS_TRANSCODE as the
check blocks run: for every probe data and input path, the status after any
earlier point of the block sequence is ≤ the status after any later point,
so NEEDS_TRANSCODE is never downgraded and NEEDS_REMUX can only go to
NEEDS_TRANSCODE before the function returns. -/
theorem overall_status_monotone (pd : ProbeData) (p : MediaPath) (i j : Nat)
    (hij : i ≤ j) : statusLe (statusAfter pd p i) (statusAfter pd p j) := by
  unfold statusAfter
  have hsplit : (compatBlocks pd p).take j =
      (compatBlocks pd p).take i ++ ((compatBlocks pd p).take j).drop i := by
    conv_lhs => rw [← List.take_append_drop i ((compatBlocks pd p).take j)]
    rw [List.take_take, Nat.min_eq_left hij]
  rw [hsplit, runBlocks_append]
  exact runBlocks_mono _
    (fun f hf => compatBlocks_mono pd p f
      (List.take_subset _ _ (List.drop_subset _ _ hf))) _

/-- Witness for C1 at concrete inputs. -/
theorem overall_status_monotone_witness :
    statusLe (statusAfter sampleProbe sampleMkvPath 0)
      (statusAfter sampleProbe sampleMkvPath 9) :=
  overall_status_monotone sampleProbe sampleMkvPath 0 9 (by norm_num)

/-- C2: with no caller-forced mode, the planner chooses rewrap iff the
classifier's result has neither `video_action` nor `audio_action` equal to
"transcode"; otherwise it chooses transcode.  (`chooseModeAuto` is modelled
from the spec, the module implementing it being absent from the tree.) -/
theorem choose_mode_auto_rewrap_iff (pd : ProbeData) (p : MediaPath) :
    chooseModeAuto (checkAppleTvCompatibility pd p) = .rewrap ↔
      ((checkAppleTvCompatibility pd p).video_action ≠ "transcode" ∧
        (checkAppleTvCompatibility pd p).audio_action ≠ "transcode") := by
  unfold chooseModeAuto
  split_ifs with h
  · simp [h]
  · simp [h]

/-- C3: `calculate_target_bitrate` implements the documented size-budget
formula, clamps the video bitrate at 0, and on one hour at 900 MB/hour
returns total 2048 kbps and video 1856 kbps (with the default 192 kbps audio
bitrate). -/
theorem calculate_target_bitrate_spec (d t a : ℚ) (hd : 0 < d) :
    (calculateTargetBitrate d t a).1 = t * (d / 3600) * 8 * 1024 / d ∧
    (calculateTargetBitrate d t a).2 =
      max 0 ((calculateTargetBitrate d t a).1 - a) ∧
    0 ≤ (calculateTargetBitrate d t a).2 ∧
    calculateTargetBitrateDefault 3600 900 = (2048, 1856) := by
  refine ⟨rfl, rfl, le_max_left _ _, ?_⟩
  unfold calculateTargetBitrateDefault calculateTargetBitrate
    DEFAULT_AUDIO_BITRATE_KBPS
  norm_num [Prod.ext_iff]

/-- Witness for C3 at concrete inputs. -/
theorem calculate_target_bitrate_witness :
    calculateTargetBitrateDefault 3600 900 = (2048, 1856) :=
  (calculate_target_bitrate_spec 3600 900 192 (by norm_num)).2.2.2

/-- C5: for an h264/avc1 video stream the level check is recorded in the
report; a numeric raw level is normalized by dividing values > 10 by 10 and
compared (inclusively) against 5.2 when width > 1920 and 4.2 otherwise; and
a raw level of 42 at width 1920 normalizes to 4.2 and is compatible. -/
theorem h264_level_check_spec :
    (∀ (st : MediaStream) (r : AppleTVCompatibility),
        (lowerStr st.codec_name = "h264" ∨ lowerStr st.codec_name = "avc1") →
        (h264LevelBlock (some st) r).checks =
          r.checks ++ [h264LevelCheckEntry st]) ∧
    (∀ (st : MediaStream) (q : ℚ), st.level = .num q →
        (h264LevelCheckEntry st).compatible =
          decide ((if q > 10 then q / 10 else q) ≤
            (if st.width > 1920 then (52 : ℚ) / 10 else 42 / 10))) ∧
    parseH264Level (.num 42) = 21 / 5 ∧
    ∀ st : MediaStream, st.codec_name = "h264" → st.level = .num 42 →
      st.width = 1920 → (h264LevelCheckEntry st).compatible = true := by
  refine ⟨?_, ?_, ?_, ?_⟩
  · intro st r h
    simp only [h264LevelBlock]
    rw [if_pos h]
    split_ifs <;> simp [addCheck]
  · intro st q hq
    simp only [h264LevelCheckEntry, parseH264Level, hq, H264_MAX_LEVEL_4K,
      H264_MAX_LEVEL_1080P]
    by_cases hl : (if q > 10 then q / 10 else q) > 0
    · simp [hl]
    · have hle : (if q > 10 then q / 10 else q) ≤
          (if st.width > 1920 then (52 : ℚ) / 10 else 42 / 10) := by
        refine le_trans (not_lt.mp hl) ?_
        split <;> norm_num
      simp only [hl, if_false]
      exact (decide_eq_true hle).symm
  · simp only [parseH264Level]
    norm_num
  · intro st h1 h2 h3
    simp only [h264LevelCheckEntry, parseH264Level, h2, h3,
      H264_MAX_LEVEL_1080P, H264_MAX_LEVEL_4K]
    norm_num

/-- Witness for C5 at a concrete stream. -/
theorem h264_level_check_witness :
    (h264LevelCheckEntry streamH264Level42).compatible = true :=
  h264_level_check_spec.2.2.2 streamH264Level42 rfl rfl rfl

/-- C10: `_parse_h264_level` returns 0.0 for an absent or unparseable raw
level without raising, and the classifier then records the H.264 Level check
as compatible with current value "Unknown" (and does not escalate). -/
theorem unknown_h264_level_compatible :
    parseH264Level .absent = 0 ∧ parseH264Level .unparseable = 0 ∧
    ∀ st : MediaStream,
      (lowerStr st.codec_name = "h264" ∨ lowerStr st.codec_name = "avc1") →
      (st.level = .absent ∨ st.level = .unparseable) →
      (h264LevelCheckEntry st).compatible = true ∧
      (h264LevelCheckEntry st).current_value = "Unknown" ∧
      ∀ r, h264LevelBlock (some st) r = addCheck r (h264LevelCheckEntry st) := by
  refine ⟨rfl, rfl, ?_⟩
  intro st hc hl
  have hlevel : parseH264Level st.level = 0 := by
    rcases hl with h | h <;> simp [h, parseH264Level]
  have hcompat : (h264LevelCheckEntry st).compatible = true := by
    simp [h264LevelCheckEntry, hlevel]
  have hcur : (h264LevelCheckEntry st).current_value = "Unknown" := by
    simp [h264LevelCheckEntry, hlevel]
  refine ⟨hcompat, hcur, ?_⟩
  intro r
  simp only [h264LevelBlock]
  rw [if_pos hc]
  simp [hcompat]

/-- Witness for C10 at a concrete stream. -/
theorem unknown_h264_level_witness :
    (h264LevelCheckEntry streamH264NoLevel).compatible = true ∧
    (h264LevelCheckEntry streamH264NoLevel).current_value = "Unknown" := by
  have h := unknown_h264_level_compatible.2.2 streamH264NoLevel
    (Or.inl rfl) (Or.inl rfl)
  exact ⟨h.1, h.2.1⟩

/-- C6: a 10-bit stream is compatible iff the codec is HEVC-family, a 12-bit
stream is never compatible, and in particular a pix_fmt containing "10" with
codec "h264" is incompatible. -/
theorem bit_depth_check_spec :
    (∀ st : MediaStream, bitDepthOf st.pix_fmt = "10-bit" →
        ((bitDepthCheckEntry st).compatible = true ↔
          HEVC_FAMILY.contains (lowerStr st.codec_name) = true)) ∧
    (∀ st : MediaStream, bitDepthOf st.pix_fmt = "12-bit" →
        (bitDepthCheckEntry st).compatible = false) ∧
    (∀ st : MediaStream, containsSub st.pix_fmt "10" = true →
        lowerStr st.codec_name = "h264" →
        (bitDepthCheckEntry st).compatible = false) := by
  refine ⟨?_, ?_, ?_⟩
  · intro st h10
    simp only [bitDepthCheckEntry, h10]
    cases hfam : HEVC_FAMILY.contains (lowerStr st.codec_name) <;> simp [hfam]
  · intro st h12
    simp [bitDepthCheckEntry, h12]
  · intro st h10 hcodec
    have hdepth : bitDepthOf st.pix_fmt = "10-bit" := by
      simp [bitDepthOf, h10]
    simp [bitDepthCheckEntry, hdepth, hcodec, HEVC_FAMILY]

/-- Witness for C6 at a concrete stream. -/
theorem bit_depth_check_witness :
    (bitDepthCheckEntry streamH264TenBit).compatible = false :=
  bit_depth_check_spec.2.2 streamH264TenBit (by decide) (by decide)

/-- C7: the audio check depends only on the first audio stream; an
unsupported first-stream codec sets audio_action to "transcode" and
escalates the overall status to NEEDS_REMUX exactly when it was still
COMPATIBLE, leaving NEEDS_REMUX and NEEDS_TRANSCODE unchanged. -/
theorem audio_check_first_stream_spec :
    (∀ (r : AppleTVCompatibility) (s0 : MediaStream)
        (rest rest' : List MediaStream),
        audioBlock (s0 :: rest) r = audioBlock (s0 :: rest') r) ∧
    (∀ (r : AppleTVCompatibility) (s0 : MediaStream)
        (rest : List MediaStream),
        APPLE_TV_SUPPORTED_AUDIO_CODECS.contains (lowerStr s0.codec_name)
          = false →
        (audioBlock (s0 :: rest) r).audio_action = "transcode" ∧
        (audioBlock (s0 :: rest) r).overall_status =
          (if r.overall_status = .compatible then .needs_remux
            else r.overall_status)) := by
  constructor
  · intro r s0 rest rest'
    rfl
  · intro r s0 rest h
    obtain ⟨st, cs, va, aa, ca, et⟩ := r
    simp only [audioBlock, addCheck, h]
    split_ifs <;> simp_all

/-- Witness for C7 at a concrete stream. -/
theorem audio_check_first_stream_witness :
    (audioBlock [streamDtsAudio] initCompat).audio_action = "transcode" :=
  (audio_check_first_stream_spec.2 initCompat streamDtsAudio [] (by decide)).1

/-! ## Language claim -/

/-- For a code fixed by the lowering/stripping normalization, with a fallback
map entry, `iso6392_to_iso6391` returns the fallback value whenever babelfish
abstains or agrees. -/
theorem iso6392ToIso6391_some_of (r : BabelResolver) (code two : String)
    (hcode : code ≠ "") (hstr : stripStr (lowerStr code) = code)
    (hfall : ISO6392_TO_ISO6391_MAP.lookup code = some two)
    (hr : ∀ v, r.alpha2 code = some v → v ≠ "" → lowerStr v = two) :
    iso6392ToIso6391 (some r) code = some two := by
  simp only [iso6392ToIso6391]
  rw [if_neg hcode, hstr]
  cases halpha : r.alpha2 code with
  | none => simp [halpha, hfall]
  | some v =>
    by_cases hv : v = ""
    · simp [halpha, hv, hfall]
    · simp [halpha, hv, hr v halpha hv]

/-- C9: each bibliographic code in the hardcoded override set is normalized
to its terminological form no matter what the generic resolver does, and
converting that terminological code to two letters yields the expected ISO
639-1 code — via the fallback map when babelfish is absent, and for any
babelfish that agrees or abstains on the code. -/
theorem language_override_roundtrip :
    ∀ (b : Option BabelResolver), ∀ t ∈ BIB_ROUNDTRIP,
      normalizeLanguageTag b t.1 = some t.2.1 ∧
      iso6392ToIso6391 none t.2.1 = some t.2.2 ∧
      ∀ r : BabelResolver,
        (∀ v, r.alpha2 t.2.1 = some v → v ≠ "" → lowerStr v = t.2.2) →
        iso6392ToIso6391 (some r) t.2.1 = some t.2.2 := by
  intro b t ht
  fin_cases ht <;>
    exact ⟨rfl, rfl, fun r hr =>
      iso6392ToIso6391_some_of r _ _ (by decide) rfl rfl hr⟩

/-- Witness for C9 at concrete inputs. -/
theorem language_override_roundtrip_witness :
    normalizeLanguageTag none "fre" = some "fra" ∧
    iso6392ToIso6391 none "fra" = some "fr" ∧
    iso6392ToIso6391 (some noBabelResolver) "fra" = some "fr" := by
  have h := language_override_roundtrip none ("fre", "fra", "fr") (by decide)
  exact ⟨h.1, h.2.1, h.2.2 noBabelResolver
    (fun v hv _ => by simp [noBabelResolver] at hv)⟩

/-! ## Pattern compiler claim -/

theorem mk_eq_iff_data {l : List Char} {s : String} :
    String.mk l = s ↔ l = s.data := by
  cases s with
  | mk data =>
    constructor
    · intro h
      injection h
    · intro h
      rw [h]

theorem spanToGt_eq {l a b} (h : spanToGt l = some (a, b)) :
    l = a ++ '>' :: b ∧ '>' ∉ a := by
  induction l generalizing a b with
  | nil => simp [spanToGt] at h
  | cons c rest ih =>
    simp only [spanToGt] at h
    split_ifs at h with hc
    · subst hc
      injection h with h
      injection h with h1 h2
      subst h1
      subst h2
      simp
    · cases hsp : spanToGt rest with
      | none => rw [hsp] at h; simp at h
      | some pr =>
        rw [hsp] at h
        simp only [Option.map_some'] at h
        injection h with h
        obtain ⟨h1, h2⟩ := Prod.mk.injEq .. ▸ (by exact h : (c :: pr.1, pr.2) = (a, b))
        obtain ⟨hsh, hna⟩ := ih (a := pr.1) (b := pr.2) (by rw [hsp])
        subst h2
        rw [← h1, hsh]
        refine ⟨rfl, ?_⟩
        intro hmem
        rcases List.mem_cons.mp hmem with h' | h'
        · exact hc h'.symm
        · exact hna h'

theorem spanToGt_of_shape (a b : List Char) (ha : '>' ∉ a) :
    spanToGt (a ++ '>' :: b) = some (a, b) := by
  induction a with
  | nil => simp [spanToGt]
  | cons c rest ih =>
    have hc : ¬(c = '>') := fun h => ha (h ▸ List.mem_cons_self c rest)
    simp only [List.cons_append, spanToGt, if_neg hc, List.append_eq]
    rw [ih (fun h => ha (List.mem_cons_of_mem _ h))]
    rfl

theorem spanToGt_isSome_of_mem {l : List Char} (h : '>' ∈ l) :
    ∃ a b, spanToGt l = some (a, b) := by
  induction l with
  | nil => simp at h
  | cons c rest ih =>
    by_cases hc : c = '>'
    · exact ⟨[], rest, by simp [spanToGt, hc]⟩
    · obtain ⟨a, b, hab⟩ := ih (by
        rcases List.mem_cons.mp h with h' | h'
        · exact absurd h'.symm hc
        · exact h')
      exact ⟨c :: a, b, by simp [spanToGt, hc, hab]⟩

theorem lookup_eq_none_of_all_ne {l : List (String × PatternToken)}
    {k : String} (h : ∀ p ∈ l, k ≠ p.1) : l.lookup k = none := by
  induction l with
  | nil => rfl
  | cons hd tl ih =>
    have hne : (k == hd.1) = false :=
      beq_eq_false_iff_ne.mpr (h hd (List.mem_cons_self hd tl))
    obtain ⟨a, v⟩ := hd
    simp only [List.lookup]
    simp only at hne
    rw [hne]
    exact ih (fun p hp => h p (List.mem_cons_of_mem _ hp))

/-- A bracketed token whose body contains a second `<` is not in the
vocabulary: every vocabulary key has exactly one `<`. -/
theorem vocab_no_inner_lt (a : List Char) (ha : '<' ∈ a) :
    PATTERN_TOKEN_MAP.lookup (String.mk ('<' :: (a ++ ['>']))) = none := by
  have hcount : 2 ≤ ('<' :: (a ++ ['>'])).count '<' := by
    simp [List.count_cons, List.count_append]
    exact ha
  apply lookup_eq_none_of_all_ne
  intro p hp
  fin_cases hp <;>
    (intro heq
     rw [mk_eq_iff_data] at heq
     rw [heq] at hcount
     exact absurd hcount (by decide))

/-- The scanner errors on a template with enough fuel and an unsupported
bracketed token somewhere in it. -/
theorem buildPiecesAux_unsupported :
    ∀ (fuel : Nat) (cs : List Char), cs.length ≤ fuel →
      HasUnsupportedToken cs →
      ∃ s, buildPiecesAux fuel cs = .error (.unsupported s) := by
  intro fuel
  induction fuel with
  | zero =>
    intro cs hlen hbad
    obtain ⟨pre, body, post, hcs, _, _⟩ := hbad
    have : cs = [] := List.eq_nil_of_length_eq_zero (Nat.le_zero.mp hlen)
    subst this
    exact absurd hcs.symm (by simp)
  | succ fuel ih =>
    intro cs hlen hbad
    obtain ⟨pre, body, post, hcs, hnb, hlook⟩ := hbad
    cases pre with
    | nil =>
      simp only [List.nil_append] at hcs
      subst hcs
      simp only [buildPiecesAux, if_pos rfl]
      rw [spanToGt_of_shape body post hnb]
      simp only
      rw [hlook]
      exact ⟨_, rfl⟩
    | cons p0 pre' =>
      simp only [List.cons_append] at hcs
      subst hcs
      by_cases hp : p0 = '<'
      · subst hp
        have hgt : '>' ∈ pre' ++ '<' :: (body ++ '>' :: post) := by simp
        obtain ⟨A, B, hspan⟩ := spanToGt_isSome_of_mem hgt
        obtain ⟨hshape, hnA⟩ := spanToGt_eq hspan
        simp only [buildPiecesAux, if_pos rfl]
        rw [hspan]
        simp only
        by_cases hla : '<' ∈ A
        · rw [vocab_no_inner_lt A hla]
          exact ⟨_, rfl⟩
        · rcases List.append_eq_append_iff.mp hshape with
            ⟨a', hA, hX⟩ | ⟨c', hpre, hY⟩
          · -- the remainder of `pre'` would begin inside the vocabulary
            -- token; its head is the bad token's `<`, contradicting hla
            cases a' with
            | nil =>
              simp at hX
            | cons h t =>
              simp only [List.cons_append] at hX
              have hh : h = '<' := (List.cons.injEq .. ▸ hX).1.symm
              subst hh
              exact absurd (hA ▸ List.mem_append_right pre'
                (List.mem_cons_self _ _)) hla
          · cases c' with
            | nil =>
              simp at hY
            | cons h t =>
              simp only [List.cons_append] at hY
              have hh : h = '>' := ((List.cons.injEq .. ▸ hY).1).symm
              subst hh
              have hB : B = t ++ '<' :: (body ++ '>' :: post) :=
                (List.cons.injEq .. ▸ hY).2
              have hbadB : HasUnsupportedToken B := ⟨t, body, post, hB, hnb, hlook⟩
              have hlenB : B.length ≤ fuel := by
                have h1 := congrArg List.length hshape
                simp only [List.length_append, List.length_cons] at h1 hlen
                omega
              cases hlk : PATTERN_TOKEN_MAP.lookup
                  (String.mk ('<' :: (A ++ ['>']))) with
              | none => exact ⟨_, rfl⟩
              | some tk =>
                obtain ⟨s, hs⟩ := ih B hlenB hbadB
                rw [hs]
                exact ⟨s, rfl⟩
      · simp only [buildPiecesAux, if_neg hp]
        obtain ⟨s, hs⟩ := ih (pre' ++ '<' :: (body ++ '>' :: post))
          (by
            simp only [List.length_cons] at hlen
            exact Nat.le_of_succ_le_succ hlen)
          ⟨pre', body, post, rfl, hnb, hlook⟩
        rw [hs]
        exact ⟨s, rfl⟩

/-- C4: a template containing a bracketed token outside the fixed vocabulary
is rejected by `build_pattern_regex` with the unsupported-token error (the
spec's PatternError) at compile time; conversely a successfully compiled
pattern contains no such token, so matching a filename against it can never
raise that error. -/
theorem build_pattern_rejects_unsupported_token :
    (∀ p : String, HasUnsupportedToken p.data →
        ∃ s, buildPatternRegex p = .error (.unsupported s)) ∧
    (∀ (p : String) (r : List RegexPiece), buildPatternRegex p = .ok r →
        ¬ HasUnsupportedToken p.data) := by
  constructor
  · intro p h
    exact buildPiecesAux_unsupported p.data.length p.data (Nat.le_refl _) h
  · intro p r hok hbad
    obtain ⟨s, hs⟩ :=
      buildPiecesAux_unsupported p.data.length p.data (Nat.le_refl _) hbad
    rw [buildPatternRegex] at hok
    rw [hok] at hs
    cases hs

/-- Witness for C4 at a concrete template. -/
theorem build_pattern_rejects_unsupported_witness :
    ∃ s, buildPatternRegex "<bad>.mkv" = .error (.unsupported s) :=
  build_pattern_rejects_unsupported_token.1 "<bad>.mkv"
    ⟨[], ['b', 'a', 'd'], ['.', 'm', 'k', 'v'], by decide, by decide, by decide⟩

/-! ## Auto-detection claim -/

/-- C8: auto-detection on "Series.Name.S02E05.1080p.WEB-DL-GROUP.mkv" yields
a TV_SHOW detection with series "Series Name", season 2, episode 5: the dash
strategy does not match, the standard S##E## marker splits the stem, the
series prefix is cleaned (dots to spaces, trailing separators trimmed), and
the episode title is truncated at the first quality token "1080p", discarding
everything from it onward (the empty title then falls back to the series
name). -/
theorem auto_detect_series_name_s02e05 :
    autoDetectMetadata (pathStem "Series.Name.S02E05.1080p.WEB-DL-GROUP.mkv") =
      some { media_type := .tv_show
             metadata := .episode
               { series_name := "Series Name"
                 episode_title := "Series Name"
                 year := none
                 season_number := some 2
                 episode_number := some 5
                 air_date := none
                 pattern_name := some "tv_standard" }
             pattern_name := "tv_standard"
             matched := true
             is_manual := false } ∧
    dashMatch ("Series.Name.S02E05.1080p.WEB-DL-GROUP").data = none ∧
    seSearch ("Series.Name.S02E05.1080p.WEB-DL-GROUP").data =
      some ("Series.Name.".data, "02", "05", ".1080p.WEB-DL-GROUP".data) ∧
    cleanComponent "Series.Name." = "Series Name" ∧
    cleanEpisodeTitle ".1080p.WEB-DL-GROUP" = "" := by
  refine ⟨?_, ?_, ?_, ?_, ?_⟩ <;> decide

end Transcoder
